import Mathlib

/-!
Verification of the Hours-system single-page application core
(router, table renderer, modal dialog, mock quality-control API).

Each definition below is a shallow embedding of one function of the
JavaScript source.  JavaScript strings are Lean `String`; JavaScript
objects used as string-keyed maps are association lists updated with
JS assignment semantics (`objSet`); DOM output produced by template
literals is modelled structurally (one constructor per template);
exceptions are `Except`; `async` functions that the claims observe
only after settling are modelled as state transformers, with the
browser hashchange event loop given explicitly as a fueled driver.
-/
/-! ## JavaScript value primitives -/
/-- A JavaScript primitive value as it occurs in the data handled by the
app: `undefined`, `null`, strings and (integer) numbers. -/
inductive JSVal where
  | vUndef
  | vNull
  | vStr (s : String)
  | vNum (n : Int)
deriving DecidableEq

/-- JavaScript `String(x)` on the values of `JSVal`. -/
def jsString : JSVal → String
  | .vUndef => "undefined"
  | .vNull => "null"
  | .vStr s => s
  | .vNum n => toString n

/-- JavaScript strict equality `===` restricted to `JSVal`. -/
def jsEq : JSVal → JSVal → Bool
  | .vUndef, .vUndef => true
  | .vNull, .vNull => true
  | .vStr a, .vStr b => a == b
  | .vNum a, .vNum b => a == b
  | _, _ => false

/-- Leading decimal digits of a character list. -/
def leadingDigits : List Char → List Char
  | [] => []
  | c :: cs => if c.isDigit then c :: leadingDigits cs else []

/-- Numeric value of a digit list. -/
def digitsVal (l : List Char) : Nat :=
  l.foldl (fun a c => a * 10 + (c.toNat - '0'.toNat)) 0

/-- JavaScript `parseInt` on the id strings occurring in this app:
parses an optional minus sign followed by leading decimal digits,
`none` standing for `NaN`.  (Radix prefixes and leading whitespace do
not occur in the ids this code applies `parseInt` to.) -/
def parseIntJS (s : String) : Option Int :=
  match s.data with
  | '-' :: rest =>
    match leadingDigits rest with
    | [] => none
    | ds => some (-(digitsVal ds : Int))
  | l =>
    match leadingDigits l with
    | [] => none
    | ds => some (digitsVal ds)

/-- JS property assignment `o[k] = v` on an object modelled as an
association list: replaces the value of an existing key in place,
otherwise appends the new key (JS objects keep string keys in
insertion order). -/
def objSet {α : Type} : List (String × α) → String → α → List (String × α)
  | [], k, v => [(k, v)]
  | (k', v') :: rest, k, v =>
    if k' = k then (k, v) :: rest else (k', v') :: objSet rest k v

/-- JavaScript `s.split(sep)` auxiliary on character lists. -/
def splitAux (sep : Char) : List Char → List Char → List (List Char)
  | [], acc => [acc.reverse]
  | c :: cs, acc =>
    if c == sep then acc.reverse :: splitAux sep cs [] else splitAux sep cs (c :: acc)

/-- JavaScript `s.split(sep)` for a one-character separator. -/
def jsSplit (sep : Char) (s : String) : List String :=
  (splitAux sep s.data []).map (fun l => ⟨l⟩)

/-- Whether a string starts with the given character
(JS `s.startsWith(c)` for a one-character argument). -/
def strStartsWith (s : String) (c : Char) : Bool :=
  match s.data with
  | d :: _ => d == c
  | [] => false

/-- JS `s.substring(1)`: drop the first character. -/
def strTail (s : String) : String :=
  ⟨s.data.drop 1⟩

/-! ## Router (src js/router.js)

`Router.matchRoute(path, pattern)` splits both strings on slashes,
drops empty segments (`.filter(Boolean)`), rejects on differing
segment counts, then walks the segments in parallel: a `:`-prefixed
pattern segment binds a parameter, a literal segment must be equal. -/
/-- `path.split('/').filter(Boolean)`: the non-empty slash-separated
segments of a path. -/
def segs (s : String) : List String :=
  (jsSplit '/' s).filter (fun t => t ≠ "")

/-- `patternPart.startsWith(':')`. -/
def isMarker (s : String) : Bool :=
  strStartsWith s ':'

/-- `patternPart.substring(1)`: the parameter name of a marker segment. -/
def markerName (s : String) : String :=
  strTail s

/-- The loop body of `Router.matchRoute`: walk pattern and path
segments in parallel, accumulating the `params` object. -/
def matchLoop : List String → List String → List (String × String) → Option (List (String × String))
  | [], [], params => some params
  | q :: qs, x :: xs, params =>
    if isMarker q then
      matchLoop qs xs (objSet params (markerName q) x)
    else if q ≠ x then
      none
    else
      matchLoop qs xs params
  | _, _, _ => none

/-- `Router.matchRoute(path, pattern)`. -/
def matchRoute (path pattern : String) : Option (List (String × String)) :=
  let pathParts := segs path
  let patternParts := segs pattern
  if pathParts.length ≠ patternParts.length then none
  else matchLoop patternParts pathParts []

/-- Specification-side characterization: every literal (non-marker)
pattern segment equals the path segment at the same position, and the
segment lists have the same length. -/
def litMatch : List String → List String → Bool
  | [], [] => true
  | q :: qs, x :: xs => (isMarker q || q == x) && litMatch qs xs
  | _, _ => false

/-- Specification-side: the names of the marker segments of a pattern. -/
def markerNames (qs : List String) : List String :=
  (qs.filter isMarker).map markerName

/-- Specification-side: the parameter bindings a successful match
produces, marker segments zipped with the path segments at the same
positions. -/
def bindings : List String → List String → List (String × String)
  | q :: qs, x :: xs =>
    if isMarker q then (markerName q, x) :: bindings qs xs else bindings qs xs
  | _, _ => []

/-! ## Router state machine -/
inductive HandlerBehavior where
  | factoryThrows (msg : String)
  | initThrows (pid : Nat) (msg : String)
  | succeeds (pid : Nat)
deriving DecidableEq

abbrev Handler := List (String × String) → HandlerBehavior

structure ErrorSurface where
  title : String
  description : String
deriving DecidableEq

structure RouterSt where
  routes : List (String × Handler)
  currentRoute : String
  hash : String
  pending : Bool
  currentPage : Option Nat
  factoryCalls : Nat
  lastError : Option ErrorSurface
  hasCallback : Bool
  callbacks : List String

def register (routes : List (String × Handler)) (path : String) (h : Handler) :
    List (String × Handler) :=
  objSet routes path h

def appRoutes (h1 h2 h3 : Handler) : List (String × Handler) :=
  register (register (register [] "/inventories" h1) "/inventories/:id" h2) "/quality-control" h3

def findMatch : List (String × Handler) → String → Option (Handler × List (String × String))
  | [], _ => none
  | (pat, h) :: rest, path =>
    match matchRoute path pat with
    | some params => some (h, params)
    | none => findMatch rest path

def normalizePath (p : String) : String :=
  let p1 := if strStartsWith p '#' then strTail p else p
  if strStartsWith p1 '/' then p1 else "/" ++ p1

def setHash (st : RouterSt) (p : String) : RouterSt :=
  if st.hash = p then st else { st with hash := p, pending := true }

def showErrorPage (st : RouterSt) (msg : String) : RouterSt :=
  { st with
    lastError := some
      { title := "Something went wrong"
        description := if msg = "" then "An unexpected error occurred" else msg } }

def initPage (st : RouterSt) (b : HandlerBehavior) : RouterSt :=
  match b with
  | .factoryThrows msg => showErrorPage { st with factoryCalls := st.factoryCalls + 1 } msg
  | .initThrows pid msg =>
    showErrorPage { st with factoryCalls := st.factoryCalls + 1, currentPage := some pid } msg
  | .succeeds pid => { st with factoryCalls := st.factoryCalls + 1, currentPage := some pid }

def handleRoute (st : RouterSt) (path : String) : RouterSt :=
  let path := normalizePath path
  let st := { st with currentRoute := path }
  match findMatch st.routes path with
  | none => setHash st "/"
  | some (h, params) =>
    let st := initPage st (h params)
    if st.hasCallback then { st with callbacks := st.callbacks ++ [path] } else st

def navigate (st : RouterSt) (path : String) (addToHistory : Bool) : RouterSt :=
  if addToHistory then setHash st path else handleRoute st path

def pathOfHash (h : String) : String :=
  if h = "" then "/" else h

def settle : Nat → RouterSt → RouterSt
  | 0, st => st
  | n + 1, st =>
    if st.pending then
      settle n (handleRoute { st with pending := false } (pathOfHash st.hash))
    else st

def demoHandlerA : Handler := fun _ => .succeeds 1

def demoHandlerB : Handler := fun _ => .succeeds 2

def demoHandlerC : Handler := fun _ => .succeeds 3

def demoRouter : RouterSt :=
  { routes := appRoutes demoHandlerA demoHandlerB demoHandlerC
    currentRoute := "/inventories"
    hash := "/nope"
    pending := false
    currentPage := none
    factoryCalls := 0
    lastError := none
    hasCallback := true
    callbacks := [] }

def failingHandler : Handler := fun _ => .initThrows 7 "boom"

def demoFailRouter : RouterSt :=
  { routes := register [] "/inventories" failingHandler
    currentRoute := "/"
    hash := ""
    pending := false
    currentPage := none
    factoryCalls := 0
    lastError := none
    hasCallback := true
    callbacks := [] }

/-! ## Table component -/
abbrev Row := List (String × JSVal)

def rowGet (row : Row) (k : String) : JSVal :=
  match row.find? (fun kv => kv.1 == k) with
  | some kv => kv.2
  | none => JSVal.vUndef

structure TAction where
  id : String
  label : String := ""
  isDisabled : Option (Row → Bool) := none

structure Column where
  key : String
  label : String
  type : Option String := none
  render : Option (JSVal → Row → String) := none
  getBadgeClass : Option (JSVal → String) := none
  actions : List TAction := []

structure Table where
  columns : List Column
  data : Option (List Row)
  loading : Bool
  emptyMessage : String := "No data available"
  emptyIcon : String := "📋"

structure ActionOut where
  id : String
  dataId : String
  disabled : Bool
deriving DecidableEq

inductive CellOut where
  | custom (html : String)
  | badge (cls : String) (value : JSVal)
  | actions (buttons : List ActionOut)
  | text (s : String)
deriving DecidableEq

inductive RenderOut where
  | loading
  | emptyState (icon msg : String)
  | table (header : List String) (body : List (List CellOut))
deriving DecidableEq

def renderActions (actions : List TAction) (row : Row) : List ActionOut :=
  actions.map fun a =>
    { id := a.id
      dataId := jsString (rowGet row "id")
      disabled := match a.isDisabled with | some pr => pr row | none => false }

def renderCell (c : Column) (row : Row) : CellOut :=
  let value := rowGet row c.key
  match c.render with
  | some f => .custom (f value row)
  | none =>
    if c.type = some "badge" then
      .badge (match c.getBadgeClass with | some g => g value | none => "badge-secondary") value
    else if c.type = some "actions" then
      .actions (renderActions c.actions row)
    else
      .text (if value = JSVal.vUndef ∨ value = JSVal.vNull then "-" else jsString value)

def Table.render (t : Table) : RenderOut :=
  if t.loading then .loading
  else
    match t.data with
    | none => .emptyState t.emptyIcon t.emptyMessage
    | some rows =>
      if rows.length = 0 then .emptyState t.emptyIcon t.emptyMessage
      else .table (t.columns.map Column.label)
        (rows.map fun r => t.columns.map fun c => renderCell c r)

def resolveRow (data : List Row) (idAttr : String) : Option Row :=
  data.find? fun r => jsString (rowGet r "id") == jsString (JSVal.vStr idAttr)

def onActionClick {α : Type} (data : List Row) (onAction : String → Option Row → α)
    (action idAttr : String) : α :=
  onAction action (resolveRow data idAttr)

def demoRow1 : Row :=
  [("code", JSVal.vStr "INV-001"), ("status", JSVal.vStr "Active")]

def demoTable : Table :=
  { columns :=
      [{ key := "code", label := "Code" },
       { key := "status", label := "Status", type := some "badge" }]
    data := some []
    loading := false }

def demoRows : List Row :=
  [[("id", JSVal.vNum 42), ("name", JSVal.vStr "Steel Sheets")],
   [("id", JSVal.vStr "7"), ("name", JSVal.vStr "Copper Wire")]]

/-! ## Modal component -/
structure DialogContent where
  title : String
  body : String
  footer : Option String
  size : String
deriving DecidableEq

structure ModalOptions where
  title : String := "Modal"
  content : String := ""
  footer : Option String := none
  size : String := "default"
  hasOnSubmit : Bool := false
  hasOnClose : Bool := false
deriving DecidableEq

structure ModalM where
  content : Option DialogContent
  isOpen : Bool
  hasOnSubmit : Bool
  hasOnClose : Bool
  escListener : Bool
  overlayActive : Bool
  closeCalls : Nat
deriving DecidableEq

def initialModal : ModalM :=
  { content := none
    isOpen := false
    hasOnSubmit := false
    hasOnClose := false
    escListener := false
    overlayActive := false
    closeCalls := 0 }

def dialogOf (opts : ModalOptions) : DialogContent :=
  { title := opts.title
    body := opts.content
    footer := opts.footer
    size := opts.size }

def modalOpen (st : ModalM) (opts : ModalOptions) : ModalM :=
  { st with
    hasOnSubmit := opts.hasOnSubmit
    hasOnClose := opts.hasOnClose
    content := some (dialogOf opts)
    overlayActive := true
    isOpen := true
    escListener := true }

def modalClose (st : ModalM) : ModalM :=
  if st.content.isSome then
    { st with
      overlayActive := false
      content := none
      isOpen := false
      closeCalls := st.closeCalls + (if st.hasOnClose then 1 else 0) }
  else st

def modalPressKey (key : String) (st : ModalM) : ModalM :=
  if st.escListener then
    if key = "Escape" ∧ st.isOpen then
      { modalClose st with escListener := false }
    else st
  else st

def demoOpts : ModalOptions :=
  { title := "Reject QC Record"
    content := "form"
    hasOnSubmit := true
    hasOnClose := true }

/-! ## Quality-control mock API -/
structure QCRecord where
  id : JSVal
  code : String
  purchaseInvoiceCode : String := ""
  rawMaterialId : JSVal := JSVal.vUndef
  rawMaterialName : String := ""
  quantity : Int := 0
  unit : Option String := none
  supplierName : Option String := none
  status : String
  rejectionReason : Option String := none
  invoicePdfUrl : String := ""
deriving DecidableEq

structure AvailMat where
  id : JSVal
  code : String
  name : String
  availableQty : Int
  unit : String
deriving DecidableEq

structure ReviewData where
  decision : Option String := none
  isApproved : Option Bool := none
  reviewerName : Option String := none
  comments : Option String := none
deriving DecidableEq

def qcIdMatches (rid : JSVal) (id : JSVal) : Bool :=
  jsEq rid id ||
    (match parseIntJS (jsString id) with
     | some n => jsEq rid (JSVal.vNum n)
     | none => false)

def truthyStr : Option String → Bool
  | some s => s ≠ ""
  | none => false

def review (records : List QCRecord) (avail : List AvailMat) (id : JSVal) (d : ReviewData) :
    Except String (List QCRecord × List AvailMat × QCRecord) :=
  match records.findIdx? (fun r => qcIdMatches r.id id) with
  | none => .error "QC record not found"
  | some idx =>
    match records.get? idx with
    | none => .error "QC record not found"
    | some r =>
      if r.status ≠ "Pending" then .error "Can only review pending records"
      else
        let isApproved := (d.decision == some "Approved") || (d.isApproved == some true)
        let r1 := { r with status := if isApproved then "Approved" else "Rejected" }
        let r2 :=
          if !isApproved && truthyStr d.comments then
            { r1 with rejectionReason := d.comments }
          else r1
        let avail2 :=
          if isApproved then
            avail ++ [{ id := r2.rawMaterialId
                        code := "RM-" ++ jsString r2.rawMaterialId
                        name := r2.rawMaterialName
                        availableQty := r2.quantity
                        unit := match r2.unit with
                          | some u => if u = "" then "units" else u
                          | none => "units" }]
          else avail
        .ok (records.set idx r2, avail2, r2)

def mockQC1 : QCRecord :=
  { id := JSVal.vStr "qc1"
    code := "QC-001"
    purchaseInvoiceCode := "PI-2024-001"
    rawMaterialId := JSVal.vStr "rm6"
    rawMaterialName := "Carbon Fiber"
    quantity := 50
    unit := some "kg"
    supplierName := some "ABC Suppliers"
    status := "Pending"
    invoicePdfUrl := "#invoice-pdf" }

def mockQC2 : QCRecord :=
  { id := JSVal.vStr "qc2"
    code := "QC-002"
    purchaseInvoiceCode := "PI-2024-002"
    rawMaterialId := JSVal.vStr "rm7"
    rawMaterialName := "Titanium Alloy"
    quantity := 25
    unit := some "kg"
    supplierName := some "XYZ Materials"
    status := "Approved"
    invoicePdfUrl := "#invoice-pdf" }

def mockQC3 : QCRecord :=
  { id := JSVal.vStr "qc3"
    code := "QC-003"
    purchaseInvoiceCode := "PI-2024-003"
    rawMaterialId := JSVal.vStr "rm8"
    rawMaterialName := "Glass Panels"
    quantity := 100
    unit := some "pcs"
    supplierName := some "Glass Corp"
    status := "Rejected"
    rejectionReason := some "Quality does not meet specifications"
    invoicePdfUrl := "#invoice-pdf" }

def mockQC4 : QCRecord :=
  { id := JSVal.vStr "qc4"
    code := "QC-004"
    purchaseInvoiceCode := "PI-2024-004"
    rawMaterialId := JSVal.vStr "rm9"
    rawMaterialName := "Ceramic Tiles"
    quantity := 200
    unit := some "pcs"
    supplierName := some "Tile Masters"
    status := "Pending"
    invoicePdfUrl := "#invoice-pdf" }

def mockQCRecords : List QCRecord :=
  [mockQC1, mockQC2, mockQC3, mockQC4]

def mockAvailableRawMaterials : List AvailMat :=
  [{ id := JSVal.vStr "rm7", code := "RM-007", name := "Titanium Alloy",
     availableQty := 25, unit := "kg" }]

def rejectedMockQC1 : QCRecord :=
  { mockQC1 with status := "Rejected", rejectionReason := some "Material fails inspection" }

/-! ## Theorems -/

theorem objSet_append {α : Type} (o : List (String × α)) (k : String) (v : α)
    (hk : ∀ kv ∈ o, kv.1 ≠ k) : objSet o k v = o ++ [(k, v)] := by
  induction o with
  | nil => rfl
  | cons hd tl ih =>
    obtain ⟨k', v'⟩ := hd
    have hne : k' ≠ k := hk (k', v') (by simp)
    simp only [objSet, if_neg hne, List.cons_append, List.cons.injEq, true_and]
    exact ih (fun kv hkv => hk kv (by simp [hkv]))

theorem matchLoop_eq (qs : List String) (xs : List String) (acc : List (String × String))
    (hnd : (markerNames qs).Nodup)
    (hdisj : ∀ kv ∈ acc, kv.1 ∉ markerNames qs) :
    matchLoop qs xs acc = if litMatch qs xs then some (acc ++ bindings qs xs) else none := by
  induction qs generalizing xs acc with
  | nil =>
    cases xs with
    | nil => simp [matchLoop, litMatch, bindings]
    | cons x xs => simp [matchLoop, litMatch]
  | cons q qs ih =>
    cases xs with
    | nil => simp [matchLoop, litMatch]
    | cons x xs =>
      by_cases hq : isMarker q = true
      · have hmn : markerNames (q :: qs) = markerName q :: markerNames qs := by
          simp [markerNames, hq]
        rw [hmn] at hnd hdisj
        have hnotin : markerName q ∉ markerNames qs := (List.nodup_cons.mp hnd).1
        have hnd' : (markerNames qs).Nodup := (List.nodup_cons.mp hnd).2
        have hkacc : ∀ kv ∈ acc, kv.1 ≠ markerName q := by
          intro kv hkv
          have := hdisj kv hkv
          simp at this
          exact this.1
        have hset : objSet acc (markerName q) x = acc ++ [(markerName q, x)] :=
          objSet_append acc (markerName q) x hkacc
        simp only [matchLoop, hq, if_true, hset]
        rw [ih xs (acc ++ [(markerName q, x)]) hnd' ?_]
        · simp only [litMatch, hq, Bool.true_or, Bool.true_and, bindings, if_pos hq]
          split <;> simp
        · intro kv hkv
          rcases List.mem_append.mp hkv with h | h
          · have := hdisj kv h
            simp at this
            exact this.2
          · simp only [List.mem_singleton] at h
            subst h
            simpa using hnotin
      · have hmn : markerNames (q :: qs) = markerNames qs := by
          simp [markerNames, hq]
        rw [hmn] at hnd hdisj
        by_cases hqx : q = x
        · subst hqx
          have hstep : matchLoop (q :: qs) (q :: xs) acc = matchLoop qs xs acc := by
            simp [matchLoop, hq]
          rw [hstep, ih xs acc hnd hdisj]
          simp [litMatch, hq, bindings]
        · have hb : (q == x) = false := by simp [hqx]
          simp [matchLoop, hq, hqx, litMatch, hb, bindings]

/-- Claim C1 -/
theorem matchRoute_correct (p P : String) (hnd : (markerNames (segs P)).Nodup) :
    matchRoute p P =
      if (segs p).length = (segs P).length ∧ litMatch (segs P) (segs p) = true
      then some (bindings (segs P) (segs p))
      else none := by
  unfold matchRoute
  by_cases hlen : (segs p).length = (segs P).length
  · simp only [hlen, ne_eq, not_true_eq_false, if_false, true_and]
    rw [matchLoop_eq (segs P) (segs p) [] hnd (by simp)]
    simp
  · simp [hlen]

theorem matchRoute_correct_witness :
    matchRoute "/inventories/42" "/inventories/:id" = some [("id", "42")] ∧
    matchRoute "/inventories" "/inventories/:id" = none := by
  constructor
  · rw [matchRoute_correct "/inventories/42" "/inventories/:id" (by decide)]
    decide
  · rw [matchRoute_correct "/inventories" "/inventories/:id" (by decide)]
    decide

theorem findMatch_none (routes : List (String × Handler)) (q : String)
    (h : ∀ pat ∈ routes.map Prod.fst, matchRoute q pat = none) :
    findMatch routes q = none := by
  induction routes with
  | nil => rfl
  | cons hd tl ih =>
    obtain ⟨pat, hh⟩ := hd
    have h1 : matchRoute q pat = none := h pat (by simp)
    simp only [findMatch, h1]
    exact ih (fun p hp => h p (by simp [hp]))

/-- Claim C2 -/
theorem unmatched_path_settles_at_root (h1 h2 h3 : Handler) (st : RouterSt) (p : String)
    (hroutes : st.routes = appRoutes h1 h2 h3)
    (hentry : p = pathOfHash st.hash)
    (hpend : st.pending = false)
    (hnm : ∀ pat ∈ (appRoutes h1 h2 h3).map Prod.fst, matchRoute (normalizePath p) pat = none) :
    (settle 4 (handleRoute st p)).currentRoute = "/" ∧
    (settle 4 (handleRoute st p)).hash = "/" ∧
    (settle 4 (handleRoute st p)).pending = false ∧
    (settle 4 (handleRoute st p)).factoryCalls = st.factoryCalls ∧
    (settle 4 (handleRoute st p)).lastError = st.lastError := by
  have hfm : findMatch st.routes (normalizePath p) = none := by
    rw [hroutes]; exact findMatch_none _ _ hnm
  have hstep1 : handleRoute st p = setHash { st with currentRoute := normalizePath p } "/" := by
    simp [handleRoute, hfm]
  by_cases hh : st.hash = "/"
  · have hp : p = "/" := by rw [hentry, hh]; rfl
    subst hp
    rw [hstep1]
    have hset2 : setHash { st with currentRoute := normalizePath "/" } "/" =
        { st with currentRoute := "/" } := by
      simp [setHash, hh]
      rfl
    rw [hset2]
    have hs : settle 4 { st with currentRoute := "/" } = { st with currentRoute := "/" } := by
      simp [settle, hpend]
    rw [hs]
    exact ⟨rfl, hh, hpend, rfl, rfl⟩
  · have hroot : ∀ pat ∈ (appRoutes h1 h2 h3).map Prod.fst, matchRoute "/" pat = none := by
      intro pat hpat
      simp [appRoutes, register, objSet] at hpat
      rcases hpat with h | h | h <;> rw [h] <;> rfl
    have hfm2 : findMatch st.routes "/" = none := by
      rw [hroutes]; exact findMatch_none _ _ hroot
    rw [hstep1]
    have hset : setHash { st with currentRoute := normalizePath p } "/" =
        { st with currentRoute := normalizePath p, hash := "/", pending := true } := by
      simp [setHash, hh]
    rw [hset]
    have h4 : settle 4 { st with currentRoute := normalizePath p, hash := "/", pending := true } =
        settle 3 (handleRoute
          { st with currentRoute := normalizePath p, hash := "/", pending := false }
          (pathOfHash "/")) := by
      simp [settle]
    have hpoh : pathOfHash "/" = "/" := rfl
    have h5 : handleRoute
        { st with currentRoute := normalizePath p, hash := "/", pending := false } "/" =
        { st with currentRoute := "/", hash := "/", pending := false } := by
      have hnorm : normalizePath "/" = "/" := rfl
      simp [handleRoute, hnorm, hfm2, setHash]
    rw [h4, hpoh, h5]
    have hs3 : settle 3 { st with currentRoute := "/", hash := "/", pending := false } =
        { st with currentRoute := "/", hash := "/", pending := false } := by
      simp [settle]
    rw [hs3]
    exact ⟨rfl, rfl, rfl, rfl, rfl⟩

theorem unmatched_path_settles_at_root_witness :
    (settle 4 (handleRoute demoRouter "/nope")).currentRoute = "/" ∧
    (settle 4 (handleRoute demoRouter "/nope")).hash = "/" ∧
    (settle 4 (handleRoute demoRouter "/nope")).pending = false ∧
    (settle 4 (handleRoute demoRouter "/nope")).factoryCalls = demoRouter.factoryCalls ∧
    (settle 4 (handleRoute demoRouter "/nope")).lastError = demoRouter.lastError :=
  unmatched_path_settles_at_root demoHandlerA demoHandlerB demoHandlerC demoRouter "/nope"
    rfl rfl rfl (by decide)

/-- Claim C3 -/
theorem handleRoute_catches_failure (st : RouterSt) (p : String) (h : Handler)
    (params : List (String × String)) (pid : Nat) (msg : String)
    (hcb : st.hasCallback = true)
    (hm : findMatch st.routes (normalizePath p) = some (h, params))
    (hf : h params = .factoryThrows msg ∨ h params = .initThrows pid msg) :
    (handleRoute st p).lastError = some
      { title := "Something went wrong"
        description := if msg = "" then "An unexpected error occurred" else msg } ∧
    (handleRoute st p).callbacks = st.callbacks ++ [normalizePath p] ∧
    (handleRoute st p).hash = st.hash ∧
    (handleRoute st p).pending = st.pending ∧
    (handleRoute st p).currentRoute = normalizePath p := by
  rcases hf with hf | hf <;>
    simp [handleRoute, hm, initPage, hf, showErrorPage, hcb]

theorem handleRoute_catches_failure_witness :
    (handleRoute demoFailRouter "/inventories").lastError =
      some { title := "Something went wrong", description := "boom" } ∧
    (handleRoute demoFailRouter "/inventories").callbacks =
      demoFailRouter.callbacks ++ ["/inventories"] ∧
    (handleRoute demoFailRouter "/inventories").hash = demoFailRouter.hash ∧
    (handleRoute demoFailRouter "/inventories").pending = demoFailRouter.pending ∧
    (handleRoute demoFailRouter "/inventories").currentRoute = "/inventories" :=
  handleRoute_catches_failure demoFailRouter "/inventories" failingHandler [] 7 "boom"
    rfl rfl (Or.inr rfl)

/-- Claim C7 -/
theorem navigate_frame_effects (st : RouterSt) (p : String) :
    (navigate st p true).hash = p ∧
    (navigate st p true).currentRoute = st.currentRoute ∧
    (navigate st p true).factoryCalls = st.factoryCalls ∧
    (navigate st p true).currentPage = st.currentPage ∧
    (navigate st p true).callbacks = st.callbacks ∧
    (navigate st p true).lastError = st.lastError ∧
    navigate st p false = handleRoute st p := by
  refine ⟨?_, ?_, ?_, ?_, ?_, ?_, rfl⟩ <;>
    · simp only [navigate, setHash, if_true]
      split <;> simp_all

/-- Claim C10 -/
theorem root_unregistered_fallback (h1 h2 h3 : Handler) (st : RouterSt)
    (hroutes : st.routes = appRoutes h1 h2 h3) :
    "/" ∉ (appRoutes h1 h2 h3).map Prod.fst ∧
    (∀ pat ∈ (appRoutes h1 h2 h3).map Prod.fst, matchRoute "/" pat = none) ∧
    handleRoute st "/" = navigate { st with currentRoute := "/" } "/" true ∧
    (handleRoute st "/").factoryCalls = st.factoryCalls ∧
    (handleRoute st "/").currentPage = st.currentPage ∧
    (handleRoute st "/").callbacks = st.callbacks ∧
    (handleRoute st "/").hash = "/" := by
  have hkeys : (appRoutes h1 h2 h3).map Prod.fst =
      ["/inventories", "/inventories/:id", "/quality-control"] := rfl
  have hroot : ∀ pat ∈ (appRoutes h1 h2 h3).map Prod.fst, matchRoute "/" pat = none := by
    rw [hkeys]
    decide
  have hfm : findMatch st.routes "/" = none := by
    rw [hroutes]
    exact findMatch_none _ _ hroot
  have hhr : handleRoute st "/" = setHash { st with currentRoute := "/" } "/" := by
    have hnorm : normalizePath "/" = "/" := rfl
    simp [handleRoute, hnorm, hfm]
  refine ⟨by rw [hkeys]; decide, hroot, by rw [hhr]; rfl, ?_, ?_, ?_, ?_⟩ <;>
    · rw [hhr]
      simp only [setHash]
      split <;> simp_all

theorem root_unregistered_fallback_witness :
    handleRoute demoRouter "/" = navigate { demoRouter with currentRoute := "/" } "/" true ∧
    (handleRoute demoRouter "/").factoryCalls = demoRouter.factoryCalls ∧
    (handleRoute demoRouter "/").hash = "/" := by
  obtain ⟨-, -, a, b, -, -, c⟩ :=
    root_unregistered_fallback demoHandlerA demoHandlerB demoHandlerC demoRouter rfl
  exact ⟨a, b, c⟩

/-- Claim C4 -/
theorem table_render_cases (t : Table) :
    (t.loading = true →
      t.render = RenderOut.loading ∧
      ∀ d, Table.render { t with data := d } = RenderOut.loading) ∧
    (t.loading = false → (t.data = none ∨ t.data = some []) →
      t.render = RenderOut.emptyState t.emptyIcon t.emptyMessage) ∧
    (∀ rows, t.loading = false → t.data = some rows → rows ≠ [] →
      t.render = RenderOut.table (t.columns.map Column.label)
        (rows.map fun r => t.columns.map fun c => renderCell c r) ∧
      (rows.map fun r => t.columns.map fun c => renderCell c r).length = rows.length ∧
      ∀ cells ∈ rows.map fun r => t.columns.map fun c => renderCell c r,
        cells.length = t.columns.length) := by
  refine ⟨?_, ?_, ?_⟩
  · intro hl
    constructor
    · simp [Table.render, hl]
    · intro d
      simp [Table.render, hl]
  · intro hl hd
    rcases hd with hd | hd <;> simp [Table.render, hl, hd]
  · intro rows hl hd hne
    refine ⟨?_, by simp, ?_⟩
    · have hlen : rows.length ≠ 0 := fun h => hne (List.length_eq_zero.mp h)
      simp [Table.render, hl, hd, hlen]
    · intro cells hc
      simp only [List.mem_map] at hc
      obtain ⟨r, _, hr⟩ := hc
      rw [← hr]
      simp

theorem table_render_cases_witness :
    Table.render demoTable = RenderOut.emptyState "📋" "No data available" ∧
    Table.render { demoTable with loading := true } = RenderOut.loading ∧
    Table.render { demoTable with data := some [demoRow1] } =
      RenderOut.table ["Code", "Status"]
        [[CellOut.text "INV-001", CellOut.badge "badge-secondary" (JSVal.vStr "Active")]] :=
  ⟨(table_render_cases demoTable).2.1 rfl (Or.inr rfl),
   ((table_render_cases { demoTable with loading := true }).1 rfl).1,
   ((table_render_cases { demoTable with data := some [demoRow1] }).2.2
      [demoRow1] rfl rfl (by decide)).1⟩

theorem find?_isSome_of_exists {α : Type} (p : α → Bool) (l : List α)
    (h : ∃ x, x ∈ l ∧ p x = true) : (l.find? p).isSome = true := by
  induction l with
  | nil => simp at h
  | cons hd tl ih =>
    obtain ⟨x, hx, hpx⟩ := h
    by_cases hphd : p hd = true
    · simp [List.find?, hphd]
    · rcases List.mem_cons.mp hx with hx | hx
      · subst hx
        exact absurd hpx hphd
      · have hf : p hd = false := by
          revert hphd
          cases p hd <;> simp
        simp only [List.find?, hf]
        exact ih ⟨x, hx, hpx⟩

/-- Claim C8 -/
theorem table_action_dispatch {α : Type} (data : List Row) (cb : String → Option Row → α)
    (a idAttr : String) :
    onActionClick data cb a idAttr = cb a (resolveRow data idAttr) ∧
    (∀ r, resolveRow data idAttr = some r → r ∈ data ∧ jsString (rowGet r "id") = idAttr) ∧
    ((∃ r, r ∈ data ∧ jsString (rowGet r "id") = idAttr) →
      (resolveRow data idAttr).isSome = true) := by
  refine ⟨rfl, ?_, ?_⟩
  · intro r hr
    refine ⟨List.mem_of_find?_eq_some hr, ?_⟩
    have := List.find?_some hr
    simpa [jsString] using this
  · intro hex
    obtain ⟨r, hmem, hid⟩ := hex
    exact find?_isSome_of_exists _ _ ⟨r, hmem, by simpa [jsString] using hid⟩

theorem table_action_dispatch_witness :
    (resolveRow demoRows "42").isSome = true :=
  (table_action_dispatch demoRows (fun a r => (a, r)) "view" "42").2.2 (by decide)

/-- Claim C5 amended -/
theorem modal_open_close (st : ModalM) (opts opts2 : ModalOptions)
    (hcb : opts.hasOnClose = true) :
    (modalClose (modalOpen st opts)).content = none ∧
    (modalClose (modalOpen st opts)).isOpen = false ∧
    (modalClose (modalOpen st opts)).closeCalls = (modalOpen st opts).closeCalls + 1 ∧
    (modalOpen (modalClose (modalOpen st opts)) opts2).isOpen = true ∧
    (modalOpen (modalClose (modalOpen st opts)) opts2).content = some (dialogOf opts2) ∧
    (modalOpen (modalClose (modalOpen st opts)) opts2).hasOnSubmit = opts2.hasOnSubmit ∧
    (modalOpen (modalClose (modalOpen st opts)) opts2).hasOnClose = opts2.hasOnClose := by
  simp [modalOpen, modalClose, hcb]

theorem modal_open_close_witness :
    (modalClose (modalOpen initialModal demoOpts)).content = none ∧
    (modalClose (modalOpen initialModal demoOpts)).isOpen = false ∧
    (modalClose (modalOpen initialModal demoOpts)).closeCalls =
      (modalOpen initialModal demoOpts).closeCalls + 1 ∧
    (modalOpen (modalClose (modalOpen initialModal demoOpts)) demoOpts).isOpen = true ∧
    (modalOpen (modalClose (modalOpen initialModal demoOpts)) demoOpts).content =
      some (dialogOf demoOpts) ∧
    (modalOpen (modalClose (modalOpen initialModal demoOpts)) demoOpts).hasOnSubmit =
      demoOpts.hasOnSubmit ∧
    (modalOpen (modalClose (modalOpen initialModal demoOpts)) demoOpts).hasOnClose =
      demoOpts.hasOnClose :=
  modal_open_close initialModal demoOpts demoOpts rfl

/-- Claim C5 counterexample -/
theorem modal_close_keeps_session_callbacks :
    (modalClose (modalOpen initialModal demoOpts)).isOpen = false ∧
    (modalClose (modalOpen initialModal demoOpts)).content = none ∧
    (modalClose (modalOpen initialModal demoOpts)).hasOnClose = true ∧
    (modalClose (modalOpen initialModal demoOpts)).hasOnSubmit = true := by
  decide

/-- Claim C6 amended -/
theorem modal_escape_listener (st : ModalM) (opts : ModalOptions) :
    (modalOpen st opts).escListener = true ∧
    (modalClose (modalOpen st opts)).escListener = true ∧
    (modalClose (modalOpen st opts)).isOpen = false ∧
    (modalPressKey "Escape" (modalOpen st opts)).escListener = false ∧
    (modalPressKey "Escape" (modalOpen st opts)).isOpen = false := by
  simp [modalOpen, modalClose, modalPressKey]

/-- Claim C6 counterexample -/
theorem modal_close_leaves_listener :
    (modalClose (modalOpen initialModal demoOpts)).isOpen = false ∧
    (modalClose (modalOpen initialModal demoOpts)).content = none ∧
    (modalClose (modalOpen initialModal demoOpts)).escListener = true := by
  decide

/-- Claim C9: for a QC record in Pending status, submitting a review
with decision Rejected (isApproved not true) and a non-empty comments
string succeeds and produces the record store in which that record has
status Rejected and rejectionReason equal to the submitted comments
text; the available raw-materials store is untouched on the rejection
path. -/
theorem review_reject_sets_reason (records : List QCRecord) (avail : List AvailMat)
    (id : JSVal) (d : ReviewData) (idx : Nat) (r : QCRecord) (c : String)
    (hidx : records.findIdx? (fun x => qcIdMatches x.id id) = some idx)
    (hr : records.get? idx = some r)
    (hstatus : r.status = "Pending")
    (hdec : d.decision = some "Rejected")
    (happ : d.isApproved ≠ some true)
    (hc : d.comments = some c)
    (hne : c ≠ "") :
    review records avail id d =
      .ok (records.set idx { r with status := "Rejected", rejectionReason := some c },
           avail,
           { r with status := "Rejected", rejectionReason := some c }) := by
  have hbdec : (d.decision == some "Approved") = false := by
    rw [hdec]
    decide
  have hbapp : (d.isApproved == some true) = false := by
    cases hh : d.isApproved with
    | none => rfl
    | some b =>
      cases b with
      | false => rfl
      | true => exact absurd hh happ
  have hcomments : truthyStr d.comments = true := by
    rw [hc]
    simp [truthyStr, hne]
  simp only [review, hidx, hr]
  rw [if_neg (by simp [hstatus])]
  have hct : truthyStr (some c) = true := by
    simp [truthyStr, hne]
  simp only [hbdec, hbapp, Bool.or_self, Bool.false_or, Bool.not_false, Bool.true_and,
    hcomments, Bool.false_eq_true, hc, hct, if_true, if_false]

theorem review_reject_sets_reason_witness :
    review mockQCRecords mockAvailableRawMaterials (JSVal.vStr "qc1")
      { decision := some "Rejected", isApproved := some false,
        reviewerName := some "System User", comments := some "Material fails inspection" } =
      .ok (mockQCRecords.set 0 rejectedMockQC1, mockAvailableRawMaterials, rejectedMockQC1) :=
  review_reject_sets_reason mockQCRecords mockAvailableRawMaterials (JSVal.vStr "qc1")
    { decision := some "Rejected", isApproved := some false,
      reviewerName := some "System User", comments := some "Material fails inspection" }
    0 mockQC1 "Material fails inspection"
    (by decide) rfl rfl rfl (by decide) rfl (by decide)
